import Mathlib

set_option maxRecDepth 100000

/-!
Formal model of the transformer record-to-entity mapping engine and OpenDSS
formatter of bdgd-tools (`src/bdgd_tools/model/Transformer.py`, with the table
registry of `src/bdgd_tools/core/Core.py` as context).

Modelling conventions:

* Python floats are modelled exactly in ℚ(√3): the only irrational that the
  formatter ever produces is a division by `3 ** 0.5`, so every runtime number
  is `a + b·√3` with `a b : ℚ` (structure `Q3`).  Binary floating-point
  rounding and the exact decimal digit strings Python prints for irrational
  intermediate values are outside the scope of the claims; `q3Repr` prints
  rational values by their exact terminating decimal expansion (which agrees
  with Python's shortest repr on the decimal literals used throughout) and
  prints values with an irrational component in an exact symbolic form.
* Python's dynamic attribute assignment (`setattr(obj, name, value)`) is
  modelled by an association list keyed by attribute name (`AttrObj`), the
  newest binding shadowing older ones, exactly like attribute lookup.
* Exceptions are modelled by `Except PyErr`; `PyErr` names the Python
  exception classes raised by the source (KeyError, TypeError, NameError,
  ZeroDivisionError, SyntaxError as `malformedExpr`, UnboundLocalError as
  `unboundLocal`).
* `eval(expression)` is modelled on the arithmetic fragment the mapping
  configuration can produce: a tokenizer plus a precedence-correct
  recursive-descent evaluator over the assembled expression string.
* I/O side effects (tqdm progress reporting, the debug `print` in `kvs`, the
  physical file write in `create_output_file`) are not value-relevant and are
  dropped; `create_output_file` itself lives in `bdgd_tools/core/Utils.py`
  which is not under `src/`, so it is modelled from the spec (see its
  doc comment).
-/

/-- Exact model of the numeric values occurring in the transformer formatter:
`⟨a, b⟩` denotes `a + b·√3`.  The source only ever divides by `3 ** 0.5` and
by integer constants, so this fragment is closed under all operations used. -/
structure Q3 where
  a : ℚ
  b : ℚ
deriving DecidableEq, Repr

/-- Embed a rational (a Python decimal literal) into `Q3`. -/
def Q3.ofRat (q : ℚ) : Q3 := ⟨q, 0⟩

/-- `voltage_kv / (3 ** 0.5)` from the source: `(a + b√3)/√3 = b + (a/3)·√3`. -/
def Q3.divSqrt3 (x : Q3) : Q3 := ⟨x.b, x.a / 3⟩

/-- `self.v_sec / 2` from the source. -/
def Q3.div2 (x : Q3) : Q3 := ⟨x.a / 2, x.b / 2⟩

/-- Fractional decimal digits of `r / d` (with `0 ≤ r < d`), fuel-bounded.
Terminates exactly on the decimal-representable rationals the claims use. -/
def fracDigits : ℕ → ℕ → ℕ → List Char
  | 0, _, _ => []
  | fuel + 1, r, d =>
    if r = 0 then []
    else Nat.digitChar (r * 10 / d) :: fracDigits fuel (r * 10 % d) d

/-- Python `f"{x}"` / `str(x)` for a float holding the exact rational `q`:
sign, integer part, then `.` and the decimal expansion (`".0"` when `q` is
integral, as Python prints floats).  Models the shortest-repr of floats on
the terminating-decimal values used by the source and the claims. -/
def floatRepr (q : ℚ) : String :=
  let sign := if q < 0 then "-" else ""
  let n := q.num.natAbs
  let d := q.den
  let ip := n / d
  let r := n % d
  if r = 0 then sign ++ toString ip ++ ".0"
  else sign ++ toString ip ++ "." ++ String.mk (fracDigits 20 r d)

/-- Python `f"{x}"` / `str(x)` on a `Q3` value.  A value with an irrational
√3-component is printed in exact symbolic form; Python would print the decimal
expansion of the nearest IEEE double, whose digits no claim constrains. -/
def q3Repr (x : Q3) : String :=
  if x.b = 0 then floatRepr x.a
  else floatRepr x.a ++ "+" ++ floatRepr x.b ++ "*sqrt3"

/-- Runtime values flowing through rows, attributes and the formatter:
Python ints, floats (exactly, in ℚ(√3)), strings, and opaque objects
(`obj`)—instances such as a freshly constructed `Transformer`, a `tqdm`
progress bar, or the property descriptors the dataclass gotcha stores into
`_v_pri`/`_v_sec`, tagged by a description of how they were built. -/
inductive Val
  | vint (z : ℤ)
  | num (x : Q3)
  | vstr (s : String)
  | obj (tag : String)
deriving DecidableEq, Repr

/-- Python `f"{v}"` / `str(v)` on a runtime value.  For an opaque object the
tag is shown in brackets; no claim formats such a value (and `str` of a
fresh `Transformer` instance would in fact raise, since its `__repr__` calls
the formatter on empty fields). -/
def pyStr : Val → String
  | .vint z => toString z
  | .num x => q3Repr x
  | .vstr s => s
  | .obj tag => "<" ++ tag ++ ">"

/-- Python f-string formatting of a value that may be `None` (a Python
function that falls off its end returns `None`, and `f"{None}"` is `"None"`). -/
def fstr : Option Val → String
  | none => "None"
  | some v => pyStr v

/-- The Python exceptions the modelled code can raise. -/
inductive PyErr
  | keyError (k : String)
  | typeError
  | attributeError
  | nameError (s : String)
  | zeroDivisionError
  | malformedExpr
  | unboundLocal (n : String)
deriving DecidableEq, Repr

/-- `Transformer.voltage_enroll` (source lines 290–295): single-phase-to-neutral
family codes divide by √3, phase-to-phase family codes return `str(voltage_kv)`,
any other code falls through and returns Python `None`. -/
def voltage_enroll (cod_phase : String) (voltage_kv : Q3) : Option Val :=
  if cod_phase ∈ (["A", "B", "C", "AN", "BN", "CN", "ABN", "BCN", "CAN", "ABCN"] : List String) then
    some (.num voltage_kv.divSqrt3)
  else if cod_phase ∈ (["AB", "BC", "CA", "ABC"] : List String) then
    some (.vstr (q3Repr voltage_kv))
  else none

/-- `Transformer.voltage_enroll_sec` (source lines 297–304). -/
def voltage_enroll_sec (cod_phase : String) (voltage_kv : Q3) : Option Val :=
  if cod_phase ∈ (["A", "B", "C", "AN", "BN", "CN"] : List String) then
    some (.num voltage_kv)
  else if cod_phase ∈ (["ABN", "BCN", "CAN", "ABCN"] : List String) then
    some (.num voltage_kv.divSqrt3)
  else if cod_phase ∈ (["AB", "BC", "CA", "ABC"] : List String) then
    some (.vstr (q3Repr voltage_kv))
  else none

example : voltage_enroll "A" (Q3.ofRat (69/5)) = some (.num ⟨0, 23/5⟩) := by
  with_unfolding_all rfl
example : voltage_enroll "AB" (Q3.ofRat (69/5)) = some (.vstr "13.8") := by
  with_unfolding_all rfl
example : floatRepr (19/100) = "0.19" := by with_unfolding_all rfl

/-! ## The transformer entity (typed view)

The `Transformer` dataclass of the source declares a fixed set of fields
(source lines 26–61); the formatter methods read and—through the property
setter for `kvas` and fresh instance attributes—write them.  This record is
the typed view of a populated entity used by the formatter claims.  The
`*_attr` fields model the instance attributes that `full_string` (source
line 369) creates by assignment: `self.kvs = ...` shadows the `kvs` method
(`none` = not yet assigned, i.e. the method is still visible), and
`self.buses`, `self.conns`, `self.taps` are new attributes.  `self.kvas = ...`
goes through the property setter and overwrites the stored field `_kvas`,
which is why `kvas` has type `Val` (an `int` on construction, a `str` after
serialization).  `windings` is declared as `str` in the dataclass but every
use is `range(self.windings)` / `f"{self.windings}"` on the `int` produced by
the windings conversion function, so it is typed ℕ here. -/

structure Transformer where
  feeder : String := ""
  bus1 : String := ""
  bus2 : String := ""
  bus3 : String := ""
  suffix_bus1 : String := ""
  suffix_bus2 : String := ""
  suffix_bus3 : String := ""
  transformer : String := ""
  ten_lin_se : String := ""
  lig_fas_p : String := ""
  lig_fas_s : String := ""
  lig_fas_t : String := ""
  v_pri : Q3 := Q3.ofRat 0
  v_sec : Q3 := Q3.ofRat 0
  tap : ℚ := 0
  MRT : ℤ := 0
  tip_trafo : String := ""
  phases : ℤ := 0
  bus1_nodes : String := ""
  bus2_nodes : String := ""
  bus3_nodes : String := ""
  windings : ℕ := 0
  conn_p : String := ""
  conn_s : String := ""
  conn_t : String := ""
  kvas : Val := .vint 0
  loadloss : ℚ := 0
  noloadloss : ℚ := 0
  kvs_field : String := ""
  kvs_attr : Option String := none
  buses_attr : Option String := none
  conns_attr : Option String := none
  taps_attr : Option String := none
deriving DecidableEq, Repr

/-- `Transformer.kvs`, the voltage-string selection method (source lines
265–287).  Branch 4 (source line 283) applies the Python `+` operator to the
result of `voltage_enroll` and a string: if the enroll result is a float or
`None` this raises `TypeError`; only a string result concatenates.  (The
debug `print` on source line 282 is a dropped side effect.) -/
def Transformer.kvs (t : Transformer) : Except PyErr String :=
  if t.tip_trafo = "MT" then
    .ok (q3Repr t.v_pri ++ " " ++ q3Repr t.v_sec)
  else if t.lig_fas_t ∈ (["BN", "CN", "AN"] : List String) ∨ t.lig_fas_s = "ABN" then
    .ok (fstr (voltage_enroll t.lig_fas_p t.v_pri) ++ " " ++
         q3Repr t.v_sec.div2 ++ " " ++ q3Repr t.v_sec.div2)
  else if t.lig_fas_t = "XX" ∧
      t.lig_fas_s ∈ (["AN", "BN", "CN", "AB", "BC", "CA", "AC", "ABC"] : List String) then
    .ok (fstr (voltage_enroll t.lig_fas_p t.v_pri) ++ " " ++
         fstr (voltage_enroll_sec t.lig_fas_s t.v_sec))
  else if t.lig_fas_t = "0" ∧ t.lig_fas_s = "ABCN" then
    match voltage_enroll t.lig_fas_p t.v_pri with
    | some (.vstr s) => .ok (s ++ q3Repr t.v_sec)
    | _ => .error .typeError
  else .ok ""

/-- The call `self.kvs()` on source line 353: once `full_string` has assigned
`self.kvs = <string>` the instance attribute shadows the method and calling
it raises `TypeError` (a `str` is not callable). -/
def Transformer.kvs_call (t : Transformer) : Except PyErr String :=
  match t.kvs_attr with
  | some _ => .error .typeError
  | none => t.kvs

/-- The `buses` string assembled by `adapting_string_variables` (source lines
329–343).  Note the trailing blank inside the MRT branches, present in the
source literals. -/
def busesStr (t : Transformer) : String :=
  if t.MRT = 1 then
    if t.bus3 ≠ "0" then
      "\"MRT_" ++ t.bus1 ++ "TRF_" ++ t.transformer ++ "." ++ t.bus1_nodes ++
      "\" \"" ++ t.bus2 ++ "." ++ t.bus2_nodes ++ "\" \"" ++ t.bus3 ++ "." ++
      t.bus3_nodes ++ "\" "
    else
      "\"MRT_" ++ t.bus1 ++ "TRF_" ++ t.transformer ++ "." ++ t.bus1_nodes ++
      "\" \"" ++ t.bus2 ++ "." ++ t.bus2_nodes ++ "\" "
  else
    if t.bus3 ≠ "0" then
      "\"" ++ t.bus1 ++ "." ++ t.bus1_nodes ++ "\" \"" ++ t.bus2 ++ "." ++
      t.bus2_nodes ++ "\" \"" ++ t.bus3 ++ "." ++ t.bus3_nodes ++ "\""
    else
      "\"" ++ t.bus1 ++ "." ++ t.bus1_nodes ++ "\" \"" ++ t.bus2 ++ "." ++
      t.bus2_nodes ++ "\""

/-- The `conns` string assembled by `adapting_string_variables` (same
branches as `busesStr`; the connection list does not depend on the MRT flag). -/
def connsStr (t : Transformer) : String :=
  if t.bus3 ≠ "0" then t.conn_p ++ " " ++ t.conn_s ++ " " ++ t.conn_t
  else t.conn_p ++ " " ++ t.conn_s

/-- `pattern_MRT` (source lines 359–365): four resistive line codes for 1–4
phases plus the 0.001 km connecting line from the real `bus1` to the
synthetic MRT node. -/
def pattern_MRT (t : Transformer) : String :=
  "New \"Linecode.LC_MRT_TRF_" ++ t.transformer ++
    "_1\" nphases=1 basefreq=60 r1=15000 x1=0 units=km normamps=0\n" ++
  "New \"Linecode.LC_MRT_TRF_" ++ t.transformer ++
    "_2\" nphases=2 basefreq=60 r1=15000 x1=0 units=km normamps=0\n" ++
  "New \"Linecode.LC_MRT_TRF_" ++ t.transformer ++
    "_3\" nphases=3 basefreq=60 r1=15000 x1=0 units=km normamps=0\n" ++
  "New \"Linecode.LC_MRT_TRF_" ++ t.transformer ++
    "_4\" nphases=4 basefreq=60 r1=15000 x1=0 units=km normamps=0\n" ++
  "New \"Line.Resist_MTR_TRF_" ++ t.transformer ++ "\" phases=1 bus1=\"" ++
    t.bus1 ++ "." ++ t.bus1_nodes ++ "\" bus2=\"MRT_" ++ t.bus1 ++ "TRF_" ++
    t.transformer ++ "." ++ t.bus1_nodes ++ "\" linecode=\"LC_MRT_TRF_" ++
    t.transformer ++ "_1\" length=0.001 units=km\n"

/-- `pattern_reactor` (source lines 355–357). -/
def pattern_reactor (t : Transformer) : String :=
  "New \"Reactor.TRF_" ++ t.transformer ++ "\" phases=1 bus1=\"" ++ t.bus2 ++
    ".4\" R=15 X=0 basefreq=60"

/-- The MRT block variable of `adapting_string_variables`: the synthetic
line-code/line text when the flag is set, empty otherwise. -/
def mrtStr (t : Transformer) : String :=
  if t.MRT = 1 then pattern_MRT t else ""

/-- `' '.join([f'{self.kvas}' for _ in range(self.windings)])` (source line
348). -/
def kvasStr (t : Transformer) : String :=
  String.intercalate " " (List.replicate t.windings (pyStr t.kvas))

/-- `' '.join([f'{self.tap}' for _ in range(self.windings)])` (source line
350). -/
def tapsStr (t : Transformer) : String :=
  String.intercalate " " (List.replicate t.windings (floatRepr t.tap))

/-- `adapting_string_variables` (source lines 307–353).  The only fallible
part is the `self.kvs()` call in the return expression; the bus, connection,
kVA, tap and MRT strings are pure functions of the fields. -/
def adapting_string_variables (t : Transformer) :
    Except PyErr (String × String × String × String × String × String) :=
  match t.kvs_call with
  | .error e => .error e
  | .ok kvsS => .ok (kvsS, busesStr t, connsStr t, kvasStr t, tapsStr t, mrtStr t)

/-- Three-decimal fixed-point core: `m` thousandths rendered as
`<integer part>.<three digits>`. -/
def fmt3core (m : ℕ) : String :=
  toString (m / 1000) ++ "." ++
  String.mk [Nat.digitChar (m % 1000 / 100), Nat.digitChar (m % 1000 / 10 % 10),
             Nat.digitChar (m % 1000 % 10)]

/-- Python `f"{x:.3f}"`: round to the nearest thousandth and print with
exactly three fractional digits.  (Ties round as Mathlib's `round`; the
source formats IEEE doubles, whose tie behaviour no claim exercises.) -/
def fmt3 (q : ℚ) : String :=
  if q < 0 then "-" ++ fmt3core (round (-q * 1000)).toNat
  else fmt3core (round (q * 1000)).toNat

/-- The main `New "Transformer..."` line of `full_string` (source lines
372–379), given the voltage string returned by the `kvs` call. -/
def transformer_line (t : Transformer) (kvsS : String) : String :=
  "New \"Transformer.TRF_" ++ t.transformer ++ "\" phases=" ++ toString t.phases ++
  " windings=" ++ toString t.windings ++
  " buses=[" ++ busesStr t ++
  "] conns=[" ++ connsStr t ++
  "] kvs=[" ++ kvsS ++
  "] taps=[" ++ tapsStr t ++
  "] kvas=[" ++ kvasStr t ++
  "] %loadloss=" ++ fmt3 t.loadloss ++ " %noloadloss=" ++ fmt3 t.noloadloss ++ "\n"

/-- `full_string` (source lines 367–381).  The destructuring assignment on
source line 369 is `self.kvs, self.buses, self.conns, self.kvas, self.taps,
MRT = ...`: it creates instance attributes `kvs` (shadowing the method),
`buses`, `conns`, `taps`, and—because `kvas` is a property—stores the joined
kVA *string* into the declared field `_kvas`.  The returned text then reads
those freshly assigned values. -/
def full_string (t : Transformer) : Except PyErr (Transformer × String) :=
  match adapting_string_variables t with
  | .error e => .error e
  | .ok (kvsS, busesS, connsS, kvasS, tapsS, mrtS) =>
    .ok ({ t with kvs_attr := some kvsS, buses_attr := some busesS,
                  conns_attr := some connsS, kvas := Val.vstr kvasS,
                  taps_attr := some tapsS },
         transformer_line t kvsS ++ mrtS ++ pattern_reactor t)

example : fmt3 (6/5) = "1.200" := by with_unfolding_all rfl

/-- Auxiliary Boolean infix test on character lists. -/
def infixOfAux (needle : List Char) : List Char → Bool
  | [] => needle.isPrefixOf []
  | c :: cs => needle.isPrefixOf (c :: cs) || infixOfAux needle cs

/-- `needle` occurs as a contiguous substring of `hay`. -/
def containsSub (hay needle : String) : Bool :=
  infixOfAux needle.toList hay.toList

/-! ## The mapping rule interpreter (dynamic view)

`_create_transformer_from_row` populates the entity with
`setattr(transformer_, f"_{key}", value)` calls, i.e. by attribute-name
strings.  This dynamic behaviour is modelled by an association list from
attribute name to value, newest binding first (exactly Python's lookup
semantics: the latest `setattr` wins). -/

/-- A Python object as a dynamic attribute map: newest binding first. -/
def AttrObj : Type := List (String × Val)

/-- An input row: column name to value (a `pandas` Series, read-only here). -/
def Row : Type := List (String × Val)

instance : DecidableEq AttrObj := by unfold AttrObj; infer_instance

instance : DecidableEq Row := by unfold Row; infer_instance

/-- `getattr(obj, name)`: first (most recent) binding. -/
def getattr (obj : AttrObj) (name : String) : Option Val := obj.lookup name

/-- `setattr(obj, name, v)`: bind `name`, shadowing any older binding. -/
def setattr (obj : AttrObj) (name : String) (v : Val) : AttrObj := (name, v) :: obj

/-- `row[col]`: raises `KeyError` when the column is missing. -/
def rowGet (row : Row) (col : String) : Except PyErr Val :=
  match row.lookup col with
  | some v => .ok v
  | none => .error (.keyError col)

/-- An `indirect_mapping` rule value: either a bare column name or a
`[column, function]` pair (source lines 454–461). -/
inductive IndirectRule
  | plain (col : String)
  | pair (col : String) (func : String)
deriving DecidableEq, Repr

/-- A token of a `calculated` rule list as it appears in the JSON
configuration: an integer literal, a float literal, or a string (either an
operator/punctuation fragment or, when it contains an alphabetic character,
a column reference). -/
inductive CfgTok
  | cint (z : ℤ)
  | cfloat (q : ℚ)
  | cstr (s : String)
deriving DecidableEq, Repr

/-- One section of the per-entity mapping configuration.  The `scalar`
constructor carries non-section entries such as `"arquivo"`. -/
inductive CfgSection
  | staticSec (rules : List (String × Val))
  | directSec (rules : List (String × String))
  | indirectSec (rules : List (String × IndirectRule))
  | calcSec (rules : List (String × List CfgTok))
  | scalar (v : Val)
deriving DecidableEq, Repr

/-- The conversion-function names imported into the module's global scope
(source line 20), i.e. the Function Registry resolvable by
`globals()[function_name]`. -/
def registryNames : List String :=
  ["convert_ttranf_phases", "convert_tfascon_bus", "convert_tten",
   "convert_ttranf_windings", "convert_tfascon_conn", "convert_tpotaprt",
   "convert_tfascon_phases", "convert_tfascon_bus_prim",
   "convert_tfascon_bus_sec", "convert_tfascon_bus_terc",
   "convert_tfascon_phases_trafo"]

/-- Modelled from the spec: the bodies of the conversion functions live in
`bdgd_tools/model/Converter.py`, which is not under `src/`; the spec only
says each is a pure `string → value` decoder.  The claims here depend solely
on registry membership, so a registered function is modelled as a definite
placeholder decoder tagging its input. -/
def registryApply (fname : String) (arg : String) : Val :=
  Val.vstr (fname ++ "<" ++ arg ++ ">")

/-- Module-level names of `Transformer.py` that are *classes* callable with a
single string argument: `Transformer(s)` constructs a fresh entity (its first
dataclass field `_feeder` receiving `s`) and `tqdm(s)` builds a progress bar
over the iterable `s`; both succeed and return an object. -/
def callableClassGlobals : List String := ["Transformer", "tqdm"]

/-- Module-level names of `Transformer.py` bound to values that are not
callable: the imported modules `copy`, `re`, `gpd`, the special form
`typing.Any` (instantiating it raises `TypeError`), and the dunder
attributes every imported module carries.  Calling any of them with a string
raises `TypeError`. -/
def notCallableGlobals : List String :=
  ["copy", "re", "gpd", "Any",
   "__name__", "__doc__", "__package__", "__loader__", "__spec__",
   "__file__", "__cached__", "__builtins__"]

/-- The full global namespace of `Transformer.py`: the eleven conversion
functions (source line 20), the other imports `copy`, `re`, `Any`, `gpd`,
`tqdm`, `create_output_file`, `dataclass` (source lines 13–23), the
`Transformer` class itself, and the module dunder attributes. -/
def moduleGlobalNames : List String :=
  registryNames ++ callableClassGlobals ++ notCallableGlobals ++
    ["dataclass", "create_output_file"]

/-- `globals()[function_name]` (source line 457) followed by the call
`function_(str(param_value))` (source line 459), over the *whole* module
namespace: `none` models the `KeyError` for a name absent from the module
globals; a present name yields the behaviour of calling that global with one
string argument.  Conversion functions decode; `Transformer`/`tqdm` construct
an object; the modules, `Any` and the dunder values are not callable
(`TypeError`); `dataclass("…")` reaches `"…".__dict__` and raises
`AttributeError`; `create_output_file` is spec-modelled (it lives in
`Utils.py`, outside `src/`) with the §4.5 signature
`(entities, template, feeder)`, so a single-argument call lacks required
arguments and raises `TypeError`. -/
def globalsLookup (fname : String) : Option (String → Except PyErr Val) :=
  if fname ∈ registryNames then some (fun s => .ok (registryApply fname s))
  else if fname ∈ callableClassGlobals then
    some (fun s => .ok (Val.obj (fname ++ "(" ++ s ++ ")")))
  else if fname ∈ notCallableGlobals then some (fun _ => .error .typeError)
  else if fname = "dataclass" then some (fun _ => .error .attributeError)
  else if fname = "create_output_file" then some (fun _ => .error .typeError)
  else none

/-- A name absent from the module's global namespace is not found by
`globals()[function_name]`. -/
theorem globalsLookup_eq_none (fname : String) (h : fname ∉ moduleGlobalNames) :
    globalsLookup fname = none := by
  simp only [moduleGlobalNames, List.mem_append, not_or] at h
  obtain ⟨⟨⟨h1, h2⟩, h3⟩, h4⟩ := h
  have h5 : ¬(fname = "dataclass") := by
    intro he
    exact h4 (by rw [he]; decide)
  have h6 : ¬(fname = "create_output_file") := by
    intro he
    exact h4 (by rw [he]; decide)
  rw [globalsLookup, if_neg h1, if_neg h2, if_neg h3, if_neg h5, if_neg h6]

/-- `_process_static` (source lines 400–414): set each attribute `_<key>` to
the literal value.  Pure—`setattr` cannot fail. -/
def processStatic (obj : AttrObj) : List (String × Val) → AttrObj
  | [] => obj
  | (k, v) :: rest => processStatic (setattr obj ("_" ++ k) v) rest

/-- `_process_direct_mapping` (source lines 417–432): copy the row value of
each referenced column. -/
def processDirect : AttrObj → List (String × String) → Row → Except PyErr AttrObj
  | obj, [], _ => .ok obj
  | obj, (k, col) :: rest, row =>
    match rowGet row col with
    | .error e => .error e
    | .ok v => processDirect (setattr obj ("_" ++ k) v) rest row

/-- `_process_indirect_mapping` (source lines 434–461): a list value is a
`(column, function)` pair—the function is looked up in the module globals
*before* the row access—otherwise the rule behaves like a direct copy. -/
def processIndirect : AttrObj → List (String × IndirectRule) → Row → Except PyErr AttrObj
  | obj, [], _ => .ok obj
  | obj, (k, .plain col) :: rest, row =>
    match rowGet row col with
    | .error e => .error e
    | .ok v => processIndirect (setattr obj ("_" ++ k) v) rest row
  | obj, (k, .pair col fname) :: rest, row =>
    match globalsLookup fname with
    | none => .error (.keyError fname)
    | some f =>
      match rowGet row col with
      | .error e => .error e
      | .ok v =>
        match f (pyStr v) with
        | .error e => .error e
        | .ok w => processIndirect (setattr obj ("_" ++ k) w) rest row

/-! ## The expression evaluator

`_process_calculated` assembles the expression as a *string* (literals
appended verbatim, row values formatted with a leading blank) and hands it to
`eval`.  The model reproduces this: assemble the same string, then evaluate
it with a tokenizer and a precedence-correct recursive-descent evaluator over
the arithmetic fragment (numbers, `+ - * /`, parentheses, unary sign).
`eval`'s behaviour outside this fragment (arbitrary code execution—the
injection surface the spec flags) is not modelled; on the fragment, unknown
identifiers raise `NameError`, division by zero raises `ZeroDivisionError`,
and anything unparsable raises `SyntaxError` (`malformedExpr`). -/

/-- A lexical token of an assembled expression. -/
inductive ExprTok
  | num (q : ℚ)
  | add
  | sub
  | mul
  | div
  | lp
  | rp
  | sym (s : String)
deriving DecidableEq, Repr

/-- Accumulate a decimal digit string into a natural number. -/
def digitsValAux : ℕ → List Char → Option ℕ
  | acc, [] => some acc
  | acc, c :: cs =>
    if c.isDigit then digitsValAux (acc * 10 + (c.toNat - 48)) cs else none

/-- Split a numeric run at its decimal point: `none` when there is more than
one point. -/
def splitDotAux : List Char → List Char → Option (List Char × List Char)
  | [], acc => some (acc.reverse, [])
  | '.' :: cs, acc => if cs.contains '.' then none else some (acc.reverse, cs)
  | c :: cs, acc => splitDotAux cs (c :: acc)

/-- Parse a decimal literal (digit run possibly containing one point) to an
exact rational. -/
def decToRat (cs : List Char) : Option ℚ :=
  match splitDotAux cs [] with
  | none => none
  | some (ip, fp) =>
    if ip = [] ∧ fp = [] then none
    else
      match digitsValAux 0 ip, digitsValAux 0 fp with
      | some ipv, some fpv => some ((ipv : ℚ) + (fpv : ℚ) / (10 : ℚ) ^ fp.length)
      | _, _ => none

/-- Close a lexical run: a numeric run becomes a number token (an invalid
numeric run, or an identifier run, becomes a symbol token). -/
def flushRun (isNum : Bool) (acc : List Char) : ExprTok :=
  if isNum then
    match decToRat acc with
    | some q => .num q
    | none => .sym (String.mk acc)
  else .sym (String.mk acc)

/-- A character that continues a numeric run. -/
def isNumChar (c : Char) : Bool := c.isDigit || c = '.'

/-- The tokenizer state machine, fuel-bounded so that it is structurally
recursive (each step consumes one fuel; `2·length + 2` fuel always
suffices).  The middle state holds the pending run (`true` = numeric). -/
def tokGo : ℕ → List Char → Option (Bool × List Char) → List ExprTok
  | _, [], none => []
  | _, [], some (b, acc) => [flushRun b acc.reverse]
  | 0, _ :: _, _ => []
  | fuel + 1, c :: cs, some (b, acc) =>
    if (b && isNumChar c) || ((!b) && (c.isAlpha || c.isDigit || c = '_')) then
      tokGo fuel cs (some (b, c :: acc))
    else
      flushRun b acc.reverse :: tokGo fuel (c :: cs) none
  | fuel + 1, c :: cs, none =>
    if c = ' ' then tokGo fuel cs none
    else if c = '+' then .add :: tokGo fuel cs none
    else if c = '-' then .sub :: tokGo fuel cs none
    else if c = '*' then .mul :: tokGo fuel cs none
    else if c = '/' then .div :: tokGo fuel cs none
    else if c = '(' then .lp :: tokGo fuel cs none
    else if c = ')' then .rp :: tokGo fuel cs none
    else if isNumChar c then tokGo fuel cs (some (true, [c]))
    else if c.isAlpha || c = '_' then tokGo fuel cs (some (false, [c]))
    else .sym (String.singleton c) :: tokGo fuel cs none

/-- Tokenize an assembled expression string. -/
def tokenize (s : String) : List ExprTok :=
  tokGo (2 * s.length + 2) s.toList none

mutual

/-- `expr := term (('+' | '-') term)*` with left associativity. -/
def parseExprF : ℕ → List ExprTok → Except PyErr (ℚ × List ExprTok)
  | 0, _ => .error .malformedExpr
  | fuel + 1, ts =>
    match parseTerm fuel ts with
    | .error e => .error e
    | .ok (v, rest) => parseExprLoop fuel v rest

/-- The additive continuation of `parseExprF`. -/
def parseExprLoop : ℕ → ℚ → List ExprTok → Except PyErr (ℚ × List ExprTok)
  | 0, _, _ => .error .malformedExpr
  | fuel + 1, acc, ts =>
    match ts with
    | .add :: rest =>
      match parseTerm fuel rest with
      | .error e => .error e
      | .ok (v, rest2) => parseExprLoop fuel (acc + v) rest2
    | .sub :: rest =>
      match parseTerm fuel rest with
      | .error e => .error e
      | .ok (v, rest2) => parseExprLoop fuel (acc - v) rest2
    | _ => .ok (acc, ts)

/-- `term := factor (('*' | '/') factor)*`; a zero divisor raises
`ZeroDivisionError` at the point of evaluation, as in Python. -/
def parseTerm : ℕ → List ExprTok → Except PyErr (ℚ × List ExprTok)
  | 0, _ => .error .malformedExpr
  | fuel + 1, ts =>
    match parseFactor fuel ts with
    | .error e => .error e
    | .ok (v, rest) => parseTermLoop fuel v rest

/-- The multiplicative continuation of `parseTerm`. -/
def parseTermLoop : ℕ → ℚ → List ExprTok → Except PyErr (ℚ × List ExprTok)
  | 0, _, _ => .error .malformedExpr
  | fuel + 1, acc, ts =>
    match ts with
    | .mul :: rest =>
      match parseFactor fuel rest with
      | .error e => .error e
      | .ok (v, rest2) => parseTermLoop fuel (acc * v) rest2
    | .div :: rest =>
      match parseFactor fuel rest with
      | .error e => .error e
      | .ok (v, rest2) =>
        if v = 0 then .error .zeroDivisionError
        else parseTermLoop fuel (acc / v) rest2
    | _ => .ok (acc, ts)

/-- `factor := number | ('+' | '-') factor | '(' expr ')'`; an identifier
raises `NameError`, any other shape `SyntaxError`. -/
def parseFactor : ℕ → List ExprTok → Except PyErr (ℚ × List ExprTok)
  | 0, _ => .error .malformedExpr
  | fuel + 1, ts =>
    match ts with
    | .num q :: rest => .ok (q, rest)
    | .sub :: rest =>
      match parseFactor fuel rest with
      | .error e => .error e
      | .ok (v, rest2) => .ok (-v, rest2)
    | .add :: rest => parseFactor fuel rest
    | .lp :: rest =>
      match parseExprF fuel rest with
      | .error e => .error e
      | .ok (v, rest2) =>
        match rest2 with
        | .rp :: rest3 => .ok (v, rest3)
        | _ => .error .malformedExpr
    | .sym s :: _ => .error (.nameError s)
    | _ => .error .malformedExpr

end

/-- `eval(expression)` on the arithmetic fragment: tokenize, parse a full
expression, and demand that every token is consumed. -/
def evalString (s : String) : Except PyErr ℚ :=
  let ts := tokenize s
  match parseExprF (4 * ts.length + 4) ts with
  | .ok (v, []) => .ok v
  | .ok (_, _ :: _) => .error .malformedExpr
  | .error e => .error e

example : evalString "2* 100" = .ok 200 := by with_unfolding_all rfl
example : evalString "(1+2" = .error .malformedExpr := by with_unfolding_all rfl
example : evalString "1/ 0" = .error .zeroDivisionError := by with_unfolding_all rfl
example : evalString " foo" = .error (.nameError "foo") := by with_unfolding_all rfl
example : evalString "1+2*3" = .ok 7 := by with_unfolding_all rfl

/-- `any(char.isalpha() for char in item)` (source line 481). -/
def hasAlphaChar (s : String) : Bool := s.toList.any Char.isAlpha

/-- Python `f"{item}"` on a literal configuration token (JSON ints print
without a decimal point, floats with one). -/
def cfgTokStr : CfgTok → String
  | .cint z => toString z
  | .cfloat q => floatRepr q
  | .cstr s => s

/-- The expression-assembly loop of `_process_calculated` (source lines
477–485): a string item containing an alphabetic character is a column
reference whose row value is appended after a blank; every other item is
appended verbatim. -/
def assembleExpr : String → List CfgTok → Row → Except PyErr String
  | acc, [], _ => .ok acc
  | acc, .cstr s :: rest, row =>
    if hasAlphaChar s then
      match rowGet row s with
      | .error e => .error e
      | .ok v => assembleExpr (acc ++ " " ++ pyStr v) rest row
    else assembleExpr (acc ++ s) rest row
  | acc, .cint z :: rest, row => assembleExpr (acc ++ cfgTokStr (.cint z)) rest row
  | acc, .cfloat q :: rest, row => assembleExpr (acc ++ cfgTokStr (.cfloat q)) rest row

/-- Assemble and evaluate one `calculated` rule (source lines 477–486).
The evaluator works in exact rationals; Python's int/float distinction in
`eval` results is not tracked. -/
def evalCalcRule (row : Row) (items : List CfgTok) : Except PyErr ℚ :=
  match assembleExpr "" items row with
  | .error e => .error e
  | .ok s => evalString s

/-- `_process_calculated` (source lines 463–488). -/
def processCalculated : AttrObj → List (String × List CfgTok) → Row → Except PyErr AttrObj
  | obj, [], _ => .ok obj
  | obj, (k, items) :: rest, row =>
    match evalCalcRule row items with
    | .error e => .error e
    | .ok q => processCalculated (setattr obj ("_" ++ k) (Val.num ⟨q, 0⟩)) rest row

/-- The section dispatch of `_create_transformer_from_row` (source lines
496–504): the key selects the processor; any other key (such as `"arquivo"`)
is skipped. -/
def processEntry (obj : AttrObj) (e : String × CfgSection) (row : Row) :
    Except PyErr AttrObj :=
  match e with
  | ("static", .staticSec rules) => .ok (processStatic obj rules)
  | ("direct_mapping", .directSec rules) => processDirect obj rules row
  | ("indirect_mapping", .indirectSec rules) => processIndirect obj rules row
  | ("calculated", .calcSec rules) => processCalculated obj rules row
  | _ => .ok obj

/-- `for key, value in transformer_config.items()`: the sections are
processed in the order they are declared in the configuration document
(Python dicts, and the JSON loader, preserve declaration order). -/
def processEntries : AttrObj → List (String × CfgSection) → Row → Except PyErr AttrObj
  | obj, [], _ => .ok obj
  | obj, e :: rest, row =>
    match processEntry obj e row with
    | .error err => .error err
    | .ok obj2 => processEntries obj2 rest row

/-- The freshly constructed `Transformer()` of source line 494 as an
attribute map: the dataclass `__init__` binds every declared field to its
default.  For `v_pri`/`v_sec` the class body later rebinds those names to
`property` objects (source lines 199–213), so the dataclass records the
*property descriptor* as the default and `__init__` routes it through the
setter into `_v_pri`/`_v_sec`: a fresh entity holds the descriptor objects
there, not `0`.  No claim reads these initial bindings. -/
def initTransformerObj : AttrObj :=
  [("_feeder", .vstr ""), ("_bus1", .vstr ""), ("_bus2", .vstr ""),
   ("_bus3", .vstr ""), ("_suffix_bus1", .vstr ""), ("_suffix_bus2", .vstr ""),
   ("_suffix_bus3", .vstr ""), ("_transformer", .vstr ""),
   ("_ten_lin_se", .vstr ""), ("_lig_fas_p", .vstr ""), ("_lig_fas_s", .vstr ""),
   ("_lig_fas_t", .vstr ""),
   ("_v_pri", .obj "property v_pri"), ("_v_sec", .obj "property v_sec"),
   ("_tap", .num (Q3.ofRat 0)), ("_MRT", .vint 0), ("_tip_trafo", .vstr ""),
   ("_phases", .vint 0), ("_bus1_nodes", .vstr ""), ("_bus2_nodes", .vstr ""),
   ("_bus3_nodes", .vstr ""), ("_windings", .vstr ""), ("_conn_p", .vstr ""),
   ("_conn_s", .vstr ""), ("_conn_t", .vstr ""), ("_kvas", .vint 0),
   ("_loadloss", .num (Q3.ofRat 0)), ("_noloadloss", .num (Q3.ofRat 0)),
   ("_kvs", .vstr "")]

/-- `_create_transformer_from_row` (source lines 492–506). -/
def create_transformer_from_row (cfg : List (String × CfgSection)) (row : Row) :
    Except PyErr AttrObj :=
  processEntries initTransformerObj cfg row

/-- The per-row loop of `create_transformer_from_json` (source lines
514–517): each row yields one appended entity; an exception propagates and
aborts the whole loop (there is no per-row handler in the source). -/
def processRows : List (String × CfgSection) → List Row → Except PyErr (List AttrObj)
  | _, [] => .ok []
  | cfg, r :: rs =>
    match create_transformer_from_row cfg r with
    | .error e => .error e
    | .ok t =>
      match processRows cfg rs with
      | .error e => .error e
      | .ok ts => .ok (t :: ts)

/-- `transformer_config["arquivo"]` (source line 520): `KeyError` when the
configuration has no such entry. -/
def getArquivo (cfg : List (String × CfgSection)) : Except PyErr Val :=
  match cfg.lookup "arquivo" with
  | some (.scalar v) => .ok v
  | _ => .error (.keyError "arquivo")

/-- `transformer_.feeder`: the `feeder` property reads `_feeder`, which every
constructed entity carries (bound by the dataclass `__init__`). -/
def feederOf (obj : AttrObj) : Val :=
  (getattr obj "_feeder").getD (.vstr "")

/-- Modelled from the spec: `create_output_file` lives in
`bdgd_tools/core/Utils.py`, which is not under `src/`.  Per the spec it
writes all entities' serialized blocks to a destination keyed by the feeder
value it is handed and returns the output artifact identifier; the
identifier is modelled as the file-name template joined with the feeder key. -/
def create_output_file (_transformers : List AttrObj) (arquivo : Val) (feeder : Val) :
    String :=
  pyStr arquivo ++ "_" ++ pyStr feeder

/-- `create_transformer_from_json` (source lines 508–522): run the per-row
loop, then call `create_output_file(transformers, config["arquivo"],
feeder=transformer_.feeder)`.  Python evaluates the call's arguments left to
right, so the `"arquivo"` lookup happens before `transformer_` is read; after
an empty loop `transformer_` was never bound and reading it raises
`UnboundLocalError`.  (The tqdm progress bar is a dropped side effect; the
`json_data['elements']['Transformer']['UNTRMT']` navigation is elided—`cfg`
*is* that sub-document.) -/
def create_transformer_from_json (cfg : List (String × CfgSection)) (rows : List Row) :
    Except PyErr (List AttrObj × String) :=
  match processRows cfg rows with
  | .error e => .error e
  | .ok ts =>
    match getArquivo cfg with
    | .error e => .error e
    | .ok arquivo =>
      match ts.getLast? with
      | none => .error (.unboundLocal "transformer_")
      | some last => .ok (ts, create_output_file ts arquivo (feederOf last))

/-! ## Helper lemmas for the voltage enroll functions -/

/-- `voltage_enroll` on the single-phase-to-neutral family. -/
theorem voltage_enroll_neutral (code : String) (kv : Q3)
    (h : code ∈ (["A", "B", "C", "AN", "BN", "CN", "ABN", "BCN", "CAN", "ABCN"] : List String)) :
    voltage_enroll code kv = some (.num kv.divSqrt3) := by
  simp only [voltage_enroll, if_pos h]

/-- `voltage_enroll` on the phase-to-phase family. -/
theorem voltage_enroll_pp (code : String) (kv : Q3)
    (h : code ∈ (["AB", "BC", "CA", "ABC"] : List String)) :
    voltage_enroll code kv = some (.vstr (q3Repr kv)) := by
  fin_cases h <;>
    · simp only [voltage_enroll]
      rw [if_neg (by decide), if_pos (by decide)]

/-- `voltage_enroll` returns Python `None` on any other code. -/
theorem voltage_enroll_none (code : String) (kv : Q3)
    (h1 : code ∉ (["A", "B", "C", "AN", "BN", "CN", "ABN", "BCN", "CAN", "ABCN"] : List String))
    (h2 : code ∉ (["AB", "BC", "CA", "ABC"] : List String)) :
    voltage_enroll code kv = none := by
  simp only [voltage_enroll]
  rw [if_neg h1, if_neg h2]

/-- `voltage_enroll_sec` on the single phase-to-neutral codes. -/
theorem voltage_enroll_sec_single (code : String) (kv : Q3)
    (h : code ∈ (["A", "B", "C", "AN", "BN", "CN"] : List String)) :
    voltage_enroll_sec code kv = some (.num kv) := by
  simp only [voltage_enroll_sec, if_pos h]

/-- `voltage_enroll_sec` on the neutral-grounded multi-phase codes. -/
theorem voltage_enroll_sec_multi (code : String) (kv : Q3)
    (h : code ∈ (["ABN", "BCN", "CAN", "ABCN"] : List String)) :
    voltage_enroll_sec code kv = some (.num kv.divSqrt3) := by
  fin_cases h <;>
    · simp only [voltage_enroll_sec]
      rw [if_neg (by decide), if_pos (by decide)]

/-- `voltage_enroll_sec` on the phase-to-phase codes. -/
theorem voltage_enroll_sec_pp (code : String) (kv : Q3)
    (h : code ∈ (["AB", "BC", "CA", "ABC"] : List String)) :
    voltage_enroll_sec code kv = some (.vstr (q3Repr kv)) := by
  fin_cases h <;>
    · simp only [voltage_enroll_sec]
      rw [if_neg (by decide), if_neg (by decide), if_pos (by decide)]

/-! ## Claim C5 -/

/-- C5: `enroll(code, kv)` returns `kv/√3` for the single-phase-to-neutral
family `A,B,C,AN,BN,CN,ABN,BCN,CAN,ABCN` and `str(kv)` for the phase-to-phase
family `AB,BC,CA,ABC`; `enrollSecondary(code, kv)` returns `kv` unchanged for
`A,B,C,AN,BN,CN`, `kv/√3` for `ABN,BCN,CAN,ABCN`, and `str(kv)` for
`AB,BC,CA,ABC`; in particular `enroll("A", 13.8) = 13.8/√3` and
`enroll("AB", 13.8) = "13.8"`. -/
theorem c5_enroll_table (code : String) (kv : Q3) :
    (code ∈ (["A", "B", "C", "AN", "BN", "CN", "ABN", "BCN", "CAN", "ABCN"] : List String) →
      voltage_enroll code kv = some (.num kv.divSqrt3)) ∧
    (code ∈ (["AB", "BC", "CA", "ABC"] : List String) →
      voltage_enroll code kv = some (.vstr (q3Repr kv))) ∧
    (code ∈ (["A", "B", "C", "AN", "BN", "CN"] : List String) →
      voltage_enroll_sec code kv = some (.num kv)) ∧
    (code ∈ (["ABN", "BCN", "CAN", "ABCN"] : List String) →
      voltage_enroll_sec code kv = some (.num kv.divSqrt3)) ∧
    (code ∈ (["AB", "BC", "CA", "ABC"] : List String) →
      voltage_enroll_sec code kv = some (.vstr (q3Repr kv))) ∧
    voltage_enroll "A" (Q3.ofRat (69/5)) = some (.num ⟨0, 23/5⟩) ∧
    voltage_enroll "AB" (Q3.ofRat (69/5)) = some (.vstr "13.8") := by
  refine ⟨voltage_enroll_neutral code kv, voltage_enroll_pp code kv,
    voltage_enroll_sec_single code kv, voltage_enroll_sec_multi code kv,
    voltage_enroll_sec_pp code kv, ?_, ?_⟩
  · with_unfolding_all rfl
  · with_unfolding_all rfl

/-- Witness for C5 at concrete inputs. -/
theorem c5_enroll_table_witness :
    voltage_enroll "BC" (Q3.ofRat 44) = some (.vstr "44.0") ∧
    voltage_enroll_sec "ABN" (Q3.ofRat 1) = some (.num ⟨0, 1/3⟩) := by
  constructor
  · exact ((c5_enroll_table "BC" (Q3.ofRat 44)).2.1 (by decide)).trans
      (by with_unfolding_all rfl)
  · exact ((c5_enroll_table "ABN" (Q3.ofRat 1)).2.2.2.1 (by decide)).trans
      (by with_unfolding_all rfl)

/-! ## Claim C2 -/

/-- C2 (amended): the kVs string follows the priority table of the source's
`if`/`elif` chain; in the fourth branch (`lig_fas_t = "0"`, `lig_fas_s =
"ABCN"`) the bare `+` of the enroll result and a string only produces the
unseparated concatenation when `lig_fas_p` is a phase-to-phase code (so that
`enroll` returns a string); for any other primary code the addition of a
float or `None` to a string raises `TypeError`. -/
theorem c2_kvs_priority_table (t : Transformer) :
    (t.tip_trafo = "MT" → t.kvs = .ok (q3Repr t.v_pri ++ " " ++ q3Repr t.v_sec)) ∧
    (t.tip_trafo ≠ "MT" →
      (t.lig_fas_t ∈ (["BN", "CN", "AN"] : List String) ∨ t.lig_fas_s = "ABN") →
      t.kvs = .ok (fstr (voltage_enroll t.lig_fas_p t.v_pri) ++ " " ++
        q3Repr t.v_sec.div2 ++ " " ++ q3Repr t.v_sec.div2)) ∧
    (t.tip_trafo ≠ "MT" → t.lig_fas_t = "XX" →
      t.lig_fas_s ∈ (["AN", "BN", "CN", "AB", "BC", "CA", "AC", "ABC"] : List String) →
      t.kvs = .ok (fstr (voltage_enroll t.lig_fas_p t.v_pri) ++ " " ++
        fstr (voltage_enroll_sec t.lig_fas_s t.v_sec))) ∧
    (t.tip_trafo ≠ "MT" → t.lig_fas_t = "0" → t.lig_fas_s = "ABCN" →
      t.lig_fas_p ∈ (["AB", "BC", "CA", "ABC"] : List String) →
      t.kvs = .ok (q3Repr t.v_pri ++ q3Repr t.v_sec)) ∧
    (t.tip_trafo ≠ "MT" → t.lig_fas_t = "0" → t.lig_fas_s = "ABCN" →
      t.lig_fas_p ∉ (["AB", "BC", "CA", "ABC"] : List String) →
      t.kvs = .error .typeError) ∧
    (t.tip_trafo ≠ "MT" →
      ¬(t.lig_fas_t ∈ (["BN", "CN", "AN"] : List String) ∨ t.lig_fas_s = "ABN") →
      ¬(t.lig_fas_t = "XX" ∧
        t.lig_fas_s ∈ (["AN", "BN", "CN", "AB", "BC", "CA", "AC", "ABC"] : List String)) →
      ¬(t.lig_fas_t = "0" ∧ t.lig_fas_s = "ABCN") →
      t.kvs = .ok "") := by
  refine ⟨?_, ?_, ?_, ?_, ?_, ?_⟩
  · intro h1
    simp only [Transformer.kvs, if_pos h1]
  · intro h1 h2
    simp only [Transformer.kvs]
    rw [if_neg h1, if_pos h2]
  · intro h1 ht hs
    have habn : t.lig_fas_s ≠ "ABN" := by
      intro he
      rw [he] at hs
      exact absurd hs (by decide)
    have h2 : ¬(t.lig_fas_t ∈ (["BN", "CN", "AN"] : List String) ∨ t.lig_fas_s = "ABN") := by
      rintro (hm | he)
      · rw [ht] at hm
        exact absurd hm (by decide)
      · exact habn he
    simp only [Transformer.kvs]
    rw [if_neg h1, if_neg h2, if_pos ⟨ht, hs⟩]
  · intro h1 ht hs hp
    have h2 : ¬(t.lig_fas_t ∈ (["BN", "CN", "AN"] : List String) ∨ t.lig_fas_s = "ABN") := by
      rintro (hm | he)
      · rw [ht] at hm
        exact absurd hm (by decide)
      · rw [he] at hs
        exact absurd hs (by decide)
    have h3 : ¬(t.lig_fas_t = "XX" ∧
        t.lig_fas_s ∈ (["AN", "BN", "CN", "AB", "BC", "CA", "AC", "ABC"] : List String)) := by
      rintro ⟨hx, _⟩
      rw [ht] at hx
      exact absurd hx (by decide)
    simp only [Transformer.kvs]
    rw [if_neg h1, if_neg h2, if_neg h3, if_pos ⟨ht, hs⟩,
      voltage_enroll_pp t.lig_fas_p t.v_pri hp]
  · intro h1 ht hs hp
    have h2 : ¬(t.lig_fas_t ∈ (["BN", "CN", "AN"] : List String) ∨ t.lig_fas_s = "ABN") := by
      rintro (hm | he)
      · rw [ht] at hm
        exact absurd hm (by decide)
      · rw [he] at hs
        exact absurd hs (by decide)
    have h3 : ¬(t.lig_fas_t = "XX" ∧
        t.lig_fas_s ∈ (["AN", "BN", "CN", "AB", "BC", "CA", "AC", "ABC"] : List String)) := by
      rintro ⟨hx, _⟩
      rw [ht] at hx
      exact absurd hx (by decide)
    simp only [Transformer.kvs]
    rw [if_neg h1, if_neg h2, if_neg h3, if_pos ⟨ht, hs⟩]
    by_cases hn : t.lig_fas_p ∈
        (["A", "B", "C", "AN", "BN", "CN", "ABN", "BCN", "CAN", "ABCN"] : List String)
    · rw [voltage_enroll_neutral t.lig_fas_p t.v_pri hn]
    · rw [voltage_enroll_none t.lig_fas_p t.v_pri hn hp]
  · intro h1 h2 h3 h4
    simp only [Transformer.kvs]
    rw [if_neg h1, if_neg h2, if_neg h3, if_neg h4]

/-- The spec's worked branch-2 example: `lig_fas_t = "AN"`, `lig_fas_p = "A"`,
`v_pri = 13.8`, `v_sec = 0.38`, not an MT transformer. -/
def tC2w : Transformer :=
  { lig_fas_t := "AN", lig_fas_p := "A", lig_fas_s := "XX",
    v_pri := Q3.ofRat (69/5), v_sec := Q3.ofRat (19/50) }

/-- Witness for C2: the branch-2 example evaluates to
`"<13.8/√3> 0.19 0.19"` (the irrational leading voltage printed in this
model's exact symbolic form). -/
theorem c2_kvs_priority_table_witness :
    Transformer.kvs tC2w = .ok "0.0+4.6*sqrt3 0.19 0.19" := by
  have h := (c2_kvs_priority_table tC2w).2.1 (by decide) (Or.inl (by decide))
  exact h.trans (by with_unfolding_all rfl)

/-- A transformer falling into branch 4 with a single-phase primary code:
the claim as stated promises the concatenated string, the source raises
`TypeError` (`float + str`). -/
def tC2bad : Transformer :=
  { lig_fas_t := "0", lig_fas_s := "ABCN", lig_fas_p := "A",
    v_pri := Q3.ofRat (69/5), v_sec := Q3.ofRat (19/50) }

/-- Counterexample to C2 as stated: in the fourth branch with
`lig_fas_p = "A"` the method raises `TypeError` instead of returning the
claimed concatenation `"<enroll(lig_fas_p, v_pri)><v_sec>"`. -/
theorem c2_branch4_counterexample :
    Transformer.kvs tC2bad = .error .typeError ∧
    Transformer.kvs tC2bad ≠
      .ok (fstr (voltage_enroll tC2bad.lig_fas_p tC2bad.v_pri) ++ q3Repr tC2bad.v_sec) := by
  constructor
  · with_unfolding_all rfl
  · intro h
    have h2 : Transformer.kvs tC2bad = .error .typeError := by with_unfolding_all rfl
    rw [h2] at h
    exact Except.noConfusion h

/-! ## Claim C4 -/

/-- A populated transformer entity (an ordinary MT unit, two buses, three
windings, kVA rating 100, losses 1.2 % and 0.5 %). -/
def tC4 : Transformer :=
  { transformer := "T1", phases := 3, windings := 3, bus1 := "B1", bus2 := "B2",
    bus3 := "0", bus1_nodes := "1.2.3", bus2_nodes := "1.2.3.4",
    conn_p := "wye", conn_s := "wye", kvas := .vint 100, tap := 1,
    loadloss := 6/5, noloadloss := 1/2, MRT := 0, tip_trafo := "MT",
    v_pri := Q3.ofRat (69/5), v_sec := Q3.ofRat (19/50) }

/-- The entity as `full_string` leaves it: the `kvs` method shadowed by the
voltage string, fresh `buses`/`conns`/`taps` attributes, and—through the
`kvas` property setter—the stored kVA field overwritten with the joined
kVA *string*. -/
def tC4after : Transformer :=
  { tC4 with kvs_attr := some "13.8 0.38",
             buses_attr := some "\"B1.1.2.3\" \"B2.1.2.3.4\"",
             conns_attr := some "wye wye",
             kvas := Val.vstr "100 100 100",
             taps_attr := some "1.0 1.0 1.0" }

/-- The text `full_string` returns for `tC4`. -/
def outC4 : String :=
  transformer_line tC4 "13.8 0.38" ++ mrtStr tC4 ++ pattern_reactor tC4

/-- C4 is a code bug: serializing `tC4` succeeds but *changes the stored kVA
field* (the destructuring assignment on source line 369 goes through the
`kvas` property setter) and leaves a string in the `kvs` attribute slot, so
serializing the same entity a second time raises `TypeError` instead of
yielding the same text.  The claim's purity/idempotence statement describes
the evident intent; the assignment to `self.…` instead of plain locals is
the slip. -/
theorem c4_serialization_mutates :
    full_string tC4 = .ok (tC4after, outC4) ∧
    tC4after.kvas ≠ tC4.kvas ∧
    full_string tC4after = .error .typeError := by
  refine ⟨by with_unfolding_all rfl, ?_, by with_unfolding_all rfl⟩
  intro h
  exact Val.noConfusion h

/-! ## Claims C6 and C7 -/

/-- C6 (amended): for a serializable entity, when the MRT flag is set the
output is the main transformer line followed by the `pattern_MRT` block and
then the Reactor line; bus 1's entry in the buses list is rewritten to the
synthetic node `MRT_<bus1>TRF_<id>`; the buses/connections strings carry
exactly three entries when `bus3 ≠ "0"` and exactly two otherwise; and the
MRT block consists of four line-code definitions (1–4 phases, r1=15000,
x1=0, km units, normamps=0) plus one 0.001 km connecting line (not a
zero-length one) from the real bus1 to the synthetic MRT node. -/
theorem c6_mrt_assembly (t t' : Transformer) (s kvsS : String)
    (h : full_string t = .ok (t', s)) (hk : t.kvs_call = .ok kvsS) :
    (t.MRT = 1 → s = transformer_line t kvsS ++ pattern_MRT t ++ pattern_reactor t) ∧
    (t.MRT = 1 → t.bus3 = "0" →
      busesStr t = "\"MRT_" ++ t.bus1 ++ "TRF_" ++ t.transformer ++ "." ++
        t.bus1_nodes ++ "\" \"" ++ t.bus2 ++ "." ++ t.bus2_nodes ++ "\" " ∧
      connsStr t = t.conn_p ++ " " ++ t.conn_s) ∧
    (t.MRT = 1 → t.bus3 ≠ "0" →
      busesStr t = "\"MRT_" ++ t.bus1 ++ "TRF_" ++ t.transformer ++ "." ++
        t.bus1_nodes ++ "\" \"" ++ t.bus2 ++ "." ++ t.bus2_nodes ++ "\" \"" ++
        t.bus3 ++ "." ++ t.bus3_nodes ++ "\" " ∧
      connsStr t = t.conn_p ++ " " ++ t.conn_s ++ " " ++ t.conn_t) ∧
    (t.MRT ≠ 1 → t.bus3 = "0" →
      busesStr t = "\"" ++ t.bus1 ++ "." ++ t.bus1_nodes ++ "\" \"" ++ t.bus2 ++
        "." ++ t.bus2_nodes ++ "\"" ∧
      connsStr t = t.conn_p ++ " " ++ t.conn_s) ∧
    (t.MRT ≠ 1 → t.bus3 ≠ "0" →
      busesStr t = "\"" ++ t.bus1 ++ "." ++ t.bus1_nodes ++ "\" \"" ++ t.bus2 ++
        "." ++ t.bus2_nodes ++ "\" \"" ++ t.bus3 ++ "." ++ t.bus3_nodes ++ "\"" ∧
      connsStr t = t.conn_p ++ " " ++ t.conn_s ++ " " ++ t.conn_t) ∧
    pattern_MRT t =
      "New \"Linecode.LC_MRT_TRF_" ++ t.transformer ++
        "_1\" nphases=1 basefreq=60 r1=15000 x1=0 units=km normamps=0\n" ++
      "New \"Linecode.LC_MRT_TRF_" ++ t.transformer ++
        "_2\" nphases=2 basefreq=60 r1=15000 x1=0 units=km normamps=0\n" ++
      "New \"Linecode.LC_MRT_TRF_" ++ t.transformer ++
        "_3\" nphases=3 basefreq=60 r1=15000 x1=0 units=km normamps=0\n" ++
      "New \"Linecode.LC_MRT_TRF_" ++ t.transformer ++
        "_4\" nphases=4 basefreq=60 r1=15000 x1=0 units=km normamps=0\n" ++
      "New \"Line.Resist_MTR_TRF_" ++ t.transformer ++ "\" phases=1 bus1=\"" ++
        t.bus1 ++ "." ++ t.bus1_nodes ++ "\" bus2=\"MRT_" ++ t.bus1 ++ "TRF_" ++
        t.transformer ++ "." ++ t.bus1_nodes ++ "\" linecode=\"LC_MRT_TRF_" ++
        t.transformer ++ "_1\" length=0.001 units=km\n" := by
  simp only [full_string, adapting_string_variables, hk] at h
  refine ⟨?_, ?_, ?_, ?_, ?_, rfl⟩
  · intro hm
    have hs : s = transformer_line t kvsS ++ mrtStr t ++ pattern_reactor t := by
      cases h
      rfl
    rw [hs, mrtStr, if_pos hm]
  · intro hm hb
    constructor
    · rw [busesStr, if_pos hm, if_neg (by rw [hb]; exact fun hc => hc rfl)]
    · rw [connsStr, if_neg (by rw [hb]; exact fun hc => hc rfl)]
  · intro hm hb
    constructor
    · rw [busesStr, if_pos hm, if_pos hb]
    · rw [connsStr, if_pos hb]
  · intro hm hb
    constructor
    · rw [busesStr, if_neg hm, if_neg (by rw [hb]; exact fun hc => hc rfl)]
    · rw [connsStr, if_neg (by rw [hb]; exact fun hc => hc rfl)]
  · intro hm hb
    constructor
    · rw [busesStr, if_neg hm, if_pos hb]
    · rw [connsStr, if_pos hb]

/-- An MRT-flagged transformer with two buses. -/
def tC6 : Transformer :=
  { transformer := "T6", MRT := 1, bus3 := "0", bus1 := "B1", bus1_nodes := "1",
    bus2 := "B2", bus2_nodes := "1.4", windings := 2, kvas := .vint 75,
    tip_trafo := "MT", conn_p := "wye", conn_s := "wye", tap := 1,
    loadloss := 2, noloadloss := 1, v_pri := Q3.ofRat (69/5),
    v_sec := Q3.ofRat (19/50) }

/-- The (entity, text) pair `full_string` produces for `tC6`. -/
def pC6 : Transformer × String := (full_string tC6).toOption.getD (({} : Transformer), "")

/-- Witness for C6 at the MRT entity `tC6`. -/
theorem c6_mrt_assembly_witness :
    full_string tC6 = .ok (pC6.1, pC6.2) ∧
    pC6.2 = transformer_line tC6 "13.8 0.38" ++ pattern_MRT tC6 ++ pattern_reactor tC6 ∧
    busesStr tC6 = "\"MRT_B1TRF_T6.1\" \"B2.1.4\" " ∧
    connsStr tC6 = "wye wye" := by
  have hfs : full_string tC6 = .ok (pC6.1, pC6.2) := by with_unfolding_all rfl
  have hk : tC6.kvs_call = .ok "13.8 0.38" := by with_unfolding_all rfl
  have h := c6_mrt_assembly tC6 pC6.1 pC6.2 "13.8 0.38" hfs hk
  refine ⟨hfs, h.1 rfl, ?_, ?_⟩
  · exact ((h.2.1 rfl rfl).1).trans (by with_unfolding_all rfl)
  · exact ((h.2.1 rfl rfl).2).trans (by with_unfolding_all rfl)

/-- Counterexample to C6 as stated: the connecting line the MRT block emits
is 0.001 km long, not zero-length—the serialized text contains
`length=0.001 units=km` and contains no `length=0 units=km` attribute. -/
theorem c6_zero_length_counterexample :
    containsSub pC6.2 "length=0.001 units=km" = true ∧
    containsSub pC6.2 "length=0 units=km" = false := by
  constructor
  · with_unfolding_all rfl
  · with_unfolding_all rfl

/-- `s` carries exactly three decimal digits after a point. -/
def threeDec (s : String) : Prop :=
  ∃ a b : String, s = a ++ "." ++ b ∧ b.length = 3

/-- `fmt3` always renders exactly three decimal digits. -/
theorem fmt3_threeDec (q : ℚ) : threeDec (fmt3 q) := by
  by_cases hq : q < 0
  · refine ⟨"-" ++ toString ((round (-q * 1000)).toNat / 1000),
      String.mk [Nat.digitChar ((round (-q * 1000)).toNat % 1000 / 100),
                 Nat.digitChar ((round (-q * 1000)).toNat % 1000 / 10 % 10),
                 Nat.digitChar ((round (-q * 1000)).toNat % 1000 % 10)], ?_, rfl⟩
    simp only [fmt3, if_pos hq, fmt3core, String.append_assoc]
  · exact ⟨toString ((round (q * 1000)).toNat / 1000),
      String.mk [Nat.digitChar ((round (q * 1000)).toNat % 1000 / 100),
                 Nat.digitChar ((round (q * 1000)).toNat % 1000 / 10 % 10),
                 Nat.digitChar ((round (q * 1000)).toNat % 1000 % 10)],
      by rw [fmt3, if_neg hq, fmt3core], rfl⟩

/-- C7: every successfully serialized block is the main transformer line,
then the MRT block when the flag is set (nothing otherwise), then the fixed
Reactor line `New "Reactor.TRF_<id>" phases=1 bus1="<bus2>.4" R=15 X=0
basefreq=60` at the very end; and the `%loadloss`/`%noloadloss` values in the
main line are rendered with exactly three decimal digits. -/
theorem c7_reactor_and_losses (t t' : Transformer) (s kvsS : String)
    (h : full_string t = .ok (t', s)) (hk : t.kvs_call = .ok kvsS) :
    s = transformer_line t kvsS ++ mrtStr t ++ pattern_reactor t ∧
    (t.MRT = 1 → mrtStr t = pattern_MRT t) ∧
    (t.MRT ≠ 1 → mrtStr t = "") ∧
    pattern_reactor t = "New \"Reactor.TRF_" ++ t.transformer ++
      "\" phases=1 bus1=\"" ++ t.bus2 ++ ".4\" R=15 X=0 basefreq=60" ∧
    (∃ pre, transformer_line t kvsS = pre ++ "] %loadloss=" ++ fmt3 t.loadloss ++
      " %noloadloss=" ++ fmt3 t.noloadloss ++ "\n") ∧
    threeDec (fmt3 t.loadloss) ∧ threeDec (fmt3 t.noloadloss) := by
  simp only [full_string, adapting_string_variables, hk] at h
  refine ⟨?_, ?_, ?_, rfl, ?_, fmt3_threeDec t.loadloss, fmt3_threeDec t.noloadloss⟩
  · cases h
    rfl
  · intro hm
    rw [mrtStr, if_pos hm]
  · intro hm
    rw [mrtStr, if_neg hm]
  · exact ⟨"New \"Transformer.TRF_" ++ t.transformer ++ "\" phases=" ++
      toString t.phases ++ " windings=" ++ toString t.windings ++ " buses=[" ++
      busesStr t ++ "] conns=[" ++ connsStr t ++ "] kvs=[" ++ kvsS ++
      "] taps=[" ++ tapsStr t ++ "] kvas=[" ++ kvasStr t, rfl⟩

/-- A non-MRT transformer used to witness C7. -/
def tC7 : Transformer :=
  { transformer := "T7", phases := 2, windings := 2, bus1 := "A1", bus2 := "A2",
    bus3 := "0", bus1_nodes := "1.2", bus2_nodes := "1.2.4", conn_p := "wye",
    conn_s := "delta", kvas := .vint 45, tap := 1, loadloss := 37/20,
    noloadloss := 3/10, MRT := 0, tip_trafo := "MT", v_pri := Q3.ofRat (69/5),
    v_sec := Q3.ofRat (19/50) }

/-- The (entity, text) pair `full_string` produces for `tC7`. -/
def pC7 : Transformer × String := (full_string tC7).toOption.getD (({} : Transformer), "")

/-- Witness for C7 at `tC7`: the block ends with the Reactor line and the
losses render as `1.850` and `0.300`. -/
theorem c7_reactor_and_losses_witness :
    full_string tC7 = .ok (pC7.1, pC7.2) ∧
    pC7.2 = transformer_line tC7 "13.8 0.38" ++ "" ++ pattern_reactor tC7 ∧
    fmt3 tC7.loadloss = "1.850" ∧ fmt3 tC7.noloadloss = "0.300" := by
  have hfs : full_string tC7 = .ok (pC7.1, pC7.2) := by with_unfolding_all rfl
  have hk : tC7.kvs_call = .ok "13.8 0.38" := by with_unfolding_all rfl
  have h := c7_reactor_and_losses tC7 pC7.1 pC7.2 "13.8 0.38" hfs hk
  refine ⟨hfs, ?_, by with_unfolding_all rfl, by with_unfolding_all rfl⟩
  have hmrt : mrtStr tC7 = "" := h.2.2.1 (by decide)
  have := h.1
  rw [hmrt] at this
  exact this

/-! ## Helper lemmas for the interpreter -/

/-- Attribute lookup immediately after `setattr` of the same name. -/
theorem getattr_setattr_same (obj : AttrObj) (n : String) (v : Val) :
    getattr (setattr obj n v) n = some v := by
  simp [getattr, setattr, List.lookup]

/-- `setattr` of a different name does not change a lookup. -/
theorem getattr_setattr_ne (obj : AttrObj) (n m : String) (v : Val) (h : m ≠ n) :
    getattr (setattr obj n v) m = getattr obj m := by
  have hb : (m == n) = false := beq_eq_false_iff_ne.mpr h
  simp [getattr, setattr, List.lookup, hb]

/-- Prefixing with the underscore that the interpreter adds preserves
distinctness of attribute names. -/
theorem underscore_ne {a b : String} (h : a ≠ b) :
    ("_" ++ a : String) ≠ "_" ++ b := by
  intro he
  apply h
  have hd := congrArg String.data he
  simp only [String.data_append] at hd
  exact String.ext (List.append_cancel_left hd)

/-- A successful `_process_calculated` run leaves attributes that none of its
rules target untouched. -/
theorem processCalculated_ok_notin (rules : List (String × List CfgTok)) :
    ∀ (obj obj' : AttrObj) (row : Row) (n : String),
      processCalculated obj rules row = .ok obj' →
      (∀ p ∈ rules, ("_" ++ p.1 : String) ≠ n) →
      getattr obj' n = getattr obj n := by
  induction rules with
  | nil =>
    intro obj obj' row n h _
    cases h
    rfl
  | cons p rest ih =>
    obtain ⟨k, items⟩ := p
    intro obj obj' row n h hn
    simp only [processCalculated] at h
    cases he : evalCalcRule row items with
    | error e => rw [he] at h; exact Except.noConfusion h
    | ok q =>
      rw [he] at h
      have h2 := ih _ _ _ _ h (fun p' hp' => hn p' (List.mem_cons_of_mem _ hp'))
      rw [h2]
      exact getattr_setattr_ne _ _ _ _ (Ne.symm (hn (k, items) (List.mem_cons_self _ _)))

/-- After a successful `_process_calculated` run, an attribute targeted by a
rule holds the value of the *last* rule that wrote it. -/
theorem processCalculated_last (c₁ : List (String × List CfgTok)) :
    ∀ (c₂ : List (String × List CfgTok)) (attr : String) (toks : List CfgTok)
      (obj obj' : AttrObj) (row : Row) (q : ℚ),
      processCalculated obj (c₁ ++ (attr, toks) :: c₂) row = .ok obj' →
      (∀ p ∈ c₂, p.1 ≠ attr) →
      evalCalcRule row toks = .ok q →
      getattr obj' ("_" ++ attr) = some (Val.num ⟨q, 0⟩) := by
  induction c₁ with
  | nil =>
    intro c₂ attr toks obj obj' row q h h2 he
    simp only [List.nil_append, processCalculated, he] at h
    have h3 := processCalculated_ok_notin c₂ _ _ _ _ h
      (fun p hp => underscore_ne (h2 p hp))
    rw [h3, getattr_setattr_same]
  | cons p rest ih =>
    obtain ⟨k, items⟩ := p
    intro c₂ attr toks obj obj' row q h h2 he
    simp only [List.cons_append, processCalculated] at h
    cases he2 : evalCalcRule row items with
    | error e => rw [he2] at h; exact Except.noConfusion h
    | ok q2 =>
      rw [he2] at h
      exact ih c₂ attr toks _ obj' row q h h2 he

/-- `processEntry` dispatch on a `static` section. -/
theorem processEntry_static (obj : AttrObj) (rules : List (String × Val)) (row : Row) :
    processEntry obj ("static", .staticSec rules) row = .ok (processStatic obj rules) := rfl

/-- `processEntry` dispatch on a `direct_mapping` section. -/
theorem processEntry_direct (obj : AttrObj) (rules : List (String × String)) (row : Row) :
    processEntry obj ("direct_mapping", .directSec rules) row = processDirect obj rules row := rfl

/-- `processEntry` dispatch on an `indirect_mapping` section. -/
theorem processEntry_indirect (obj : AttrObj) (rules : List (String × IndirectRule)) (row : Row) :
    processEntry obj ("indirect_mapping", .indirectSec rules) row =
      processIndirect obj rules row := rfl

/-- `processEntry` dispatch on a `calculated` section. -/
theorem processEntry_calc (obj : AttrObj) (rules : List (String × List CfgTok)) (row : Row) :
    processEntry obj ("calculated", .calcSec rules) row = processCalculated obj rules row := rfl

/-- A successful batch loop yields exactly one entity per row. -/
theorem processRows_length (cfg : List (String × CfgSection)) :
    ∀ (rows : List Row) (ts : List AttrObj),
      processRows cfg rows = .ok ts → ts.length = rows.length := by
  intro rows
  induction rows with
  | nil =>
    intro ts h
    cases h
    rfl
  | cons r rs ih =>
    intro ts h
    simp only [processRows] at h
    cases hr : create_transformer_from_row cfg r with
    | error e => rw [hr] at h; exact Except.noConfusion h
    | ok t =>
      rw [hr] at h
      cases hrs : processRows cfg rs with
      | error e => rw [hrs] at h; exact Except.noConfusion h
      | ok ts2 =>
        rw [hrs] at h
        cases h
        simp [ih ts2 hrs]

/-- A successful batch loop maps the `i`-th row to the `i`-th entity. -/
theorem processRows_get (cfg : List (String × CfgSection)) :
    ∀ (rows : List Row) (ts : List AttrObj),
      processRows cfg rows = .ok ts →
      ∀ (i : ℕ) (hi : i < rows.length) (hi' : i < ts.length),
        create_transformer_from_row cfg (rows.get ⟨i, hi⟩) = .ok (ts.get ⟨i, hi'⟩) := by
  intro rows
  induction rows with
  | nil =>
    intro ts h i hi
    exact absurd hi (Nat.not_lt_zero i)
  | cons r rs ih =>
    intro ts h i hi hi'
    simp only [processRows] at h
    cases hr : create_transformer_from_row cfg r with
    | error e => rw [hr] at h; exact Except.noConfusion h
    | ok t =>
      rw [hr] at h
      cases hrs : processRows cfg rs with
      | error e => rw [hrs] at h; exact Except.noConfusion h
      | ok ts2 =>
        rw [hrs] at h
        cases h
        cases i with
        | zero => exact hr
        | succ j => exact ih ts2 hrs j (Nat.lt_of_succ_lt_succ hi) (Nat.lt_of_succ_lt_succ hi')

/-! ## Claim C1 -/

/-- A mapping configuration declaring the four sections in the canonical
order `static`, `direct_mapping`, `indirect_mapping`, `calculated`. -/
def cfg_canonical (sS : List (String × Val)) (dS : List (String × String))
    (iS : List (String × IndirectRule)) (cS : List (String × List CfgTok)) :
    List (String × CfgSection) :=
  [("static", .staticSec sS), ("direct_mapping", .directSec dS),
   ("indirect_mapping", .indirectSec iS), ("calculated", .calcSec cS)]

/-- C1 (amended): the interpreter processes the sections in the order they
are declared in the configuration document, each later write overwriting
earlier ones; consequently, when the sections are declared in the canonical
order `static → direct_mapping → indirect_mapping → calculated`, a target
attribute whose last `calculated` rule evaluates to `q` ends up holding `q`,
whatever the `static`, `direct` and `indirect` sections wrote to it.
(Declaration order—not a fixed section order—decides ties; see the
counterexample for a `calculated`-before-`direct` document.) -/
theorem c1_calculated_wins (sS : List (String × Val)) (dS : List (String × String))
    (iS : List (String × IndirectRule)) (c₁ c₂ : List (String × List CfgTok))
    (attr : String) (toks : List CfgTok) (row : Row) (obj' : AttrObj) (q : ℚ)
    (h : create_transformer_from_row
      (cfg_canonical sS dS iS (c₁ ++ (attr, toks) :: c₂)) row = .ok obj')
    (h2 : ∀ p ∈ c₂, p.1 ≠ attr)
    (h3 : evalCalcRule row toks = .ok q) :
    getattr obj' ("_" ++ attr) = some (Val.num ⟨q, 0⟩) := by
  simp only [create_transformer_from_row, cfg_canonical, processEntries,
    processEntry_static, processEntry_direct, processEntry_indirect,
    processEntry_calc] at h
  cases hd : processDirect (processStatic initTransformerObj sS) dS row with
  | error e => rw [hd] at h; exact Except.noConfusion h
  | ok o2 =>
    rw [hd] at h
    dsimp only at h
    cases hi : processIndirect o2 iS row with
    | error e => rw [hi] at h; exact Except.noConfusion h
    | ok o3 =>
      rw [hi] at h
      dsimp only at h
      cases hc : processCalculated o3 (c₁ ++ (attr, toks) :: c₂) row with
      | error e => rw [hc] at h; exact Except.noConfusion h
      | ok o4 =>
        rw [hc] at h
        dsimp only at h
        cases h
        exact processCalculated_last c₁ c₂ attr toks o3 obj' row q hc h2 h3

/-- A row carrying the rated-power column. -/
def rowC1 : Row := [("POT_NOM", .vint 100)]

/-- A canonical-order configuration where `direct_mapping` and `calculated`
both target `kvas`. -/
def cfgC1canon : List (String × CfgSection) :=
  cfg_canonical [] [("kvas", "POT_NOM")] []
    [("kvas", [CfgTok.cint 2, CfgTok.cstr "*", CfgTok.cstr "POT_NOM"])]

/-- The entity the interpreter builds from `cfgC1canon` and `rowC1`. -/
def objC1canon : AttrObj :=
  (create_transformer_from_row cfgC1canon rowC1).toOption.getD []

/-- Witness for C1: with canonical declaration order, the `calculated` value
`2 * 100 = 200` overwrites the direct copy `100`. -/
theorem c1_calculated_wins_witness :
    getattr objC1canon "_kvas" = some (Val.num ⟨200, 0⟩) := by
  have h : create_transformer_from_row
      (cfg_canonical [] [("kvas", "POT_NOM")] []
        ([] ++ ("kvas", [CfgTok.cint 2, CfgTok.cstr "*", CfgTok.cstr "POT_NOM"]) :: []))
      rowC1 = .ok objC1canon := by with_unfolding_all rfl
  exact c1_calculated_wins [] [("kvas", "POT_NOM")] [] [] [] "kvas"
    [CfgTok.cint 2, CfgTok.cstr "*", CfgTok.cstr "POT_NOM"] rowC1 objC1canon 200 h
    (by simp) (by with_unfolding_all rfl)

/-- A configuration document declaring `calculated` *before*
`direct_mapping`, both targeting `kvas`. -/
def cfgC1rev : List (String × CfgSection) :=
  [("calculated", .calcSec [("kvas", [CfgTok.cint 5])]),
   ("direct_mapping", .directSec [("kvas", "POT_NOM")])]

/-- The entity the interpreter builds from `cfgC1rev` and `rowC1`. -/
def objC1rev : AttrObj :=
  (create_transformer_from_row cfgC1rev rowC1).toOption.getD []

/-- Counterexample to C1 as stated: with `calculated` declared before
`direct_mapping`, the direct copy `100` wins, not the calculated `5`—the
interpreter follows declaration order, not a fixed
static→direct→indirect→calculated order. -/
theorem c1_declaration_order_counterexample :
    create_transformer_from_row cfgC1rev rowC1 = .ok objC1rev ∧
    getattr objC1rev "_kvas" = some (.vint 100) ∧
    getattr objC1rev "_kvas" ≠ some (.num ⟨5, 0⟩) := by
  refine ⟨by with_unfolding_all rfl, by with_unfolding_all rfl, ?_⟩
  with_unfolding_all decide

/-! ## Claim C3 -/

/-- A configuration whose only section is a single `(column, function)`
indirect rule. -/
def cfg_indirect_only (attr col fname : String) : List (String × CfgSection) :=
  [("indirect_mapping", .indirectSec [(attr, .pair col fname)])]

/-- The probe row used by C3's in-globals conjuncts. -/
def rowC3probe : Row := [("COD_ID", .vstr "X")]

/-- The entity built when an indirect rule (mis)names the `Transformer`
class itself as its conversion function: `globals()["Transformer"]` succeeds
and `Transformer(str(value))` constructs a fresh entity object, which is
stored in the target attribute—no error is raised. -/
def objC3T : AttrObj :=
  (create_transformer_from_row (cfg_indirect_only "transformer" "COD_ID" "Transformer")
    rowC3probe).toOption.getD []

/-- C3 (amended): the "registry" an indirect rule's function name is looked
up in is the module's *global namespace*, which holds the eleven conversion
functions together with the module's other imports (`copy`, `re`, `Any`,
`gpd`, `tqdm`, `create_output_file`, `dataclass`), the `Transformer` class
and the module dunder attributes.  For a function name absent from that
namespace—in particular any misspelled conversion-function name—the lookup
raises `KeyError` (the spec's `UnknownConversionFunction`), and the failure
is not contained to the row: the batch driver has no per-row handler, so the
exception propagates out of `create_transformer_from_json` and no rows of
the batch produce entities.  A global name that is *not* a conversion
function is not rejected by the lookup: naming `"Transformer"` builds the
entity successfully (a fresh `Transformer` object lands in the attribute),
and naming `"copy"` fails only at the call, with `TypeError`, not with the
lookup's `KeyError`. -/
theorem c3_unknown_function_aborts_batch (attr col fname : String) (row : Row)
    (rows : List Row) (h : fname ∉ moduleGlobalNames) :
    processIndirect initTransformerObj [(attr, .pair col fname)] row =
      .error (.keyError fname) ∧
    create_transformer_from_row (cfg_indirect_only attr col fname) row =
      .error (.keyError fname) ∧
    create_transformer_from_json (cfg_indirect_only attr col fname) (row :: rows) =
      .error (.keyError fname) ∧
    create_transformer_from_row (cfg_indirect_only "transformer" "COD_ID" "Transformer")
      rowC3probe = .ok objC3T ∧
    create_transformer_from_row (cfg_indirect_only "transformer" "COD_ID" "copy")
      rowC3probe = .error .typeError := by
  have hg : globalsLookup fname = none := globalsLookup_eq_none fname h
  have h1 : ∀ obj : AttrObj, processIndirect obj [(attr, .pair col fname)] row =
      .error (.keyError fname) := by
    intro obj
    simp only [processIndirect, hg]
  have h2 : create_transformer_from_row (cfg_indirect_only attr col fname) row =
      .error (.keyError fname) := by
    simp only [create_transformer_from_row, cfg_indirect_only, processEntries,
      processEntry_indirect, h1]
  refine ⟨h1 initTransformerObj, h2, ?_, ?_, ?_⟩
  · simp only [create_transformer_from_json, processRows, h2]
  · with_unfolding_all rfl
  · with_unfolding_all rfl

/-- Witness for C3: `"convert_bogus"` is nowhere in the module globals, so a
two-row batch over such a configuration returns `KeyError` and no entities. -/
theorem c3_unknown_function_aborts_batch_witness :
    create_transformer_from_json (cfg_indirect_only "phases" "FAS_CON" "convert_bogus")
      ([("FAS_CON", .vstr "ABC")] :: [[("FAS_CON", .vstr "AB")]]) =
      .error (.keyError "convert_bogus") :=
  (c3_unknown_function_aborts_batch "phases" "FAS_CON" "convert_bogus"
    [("FAS_CON", .vstr "ABC")] [[("FAS_CON", .vstr "AB")]] (by decide)).2.2.1

/-- The two-row batch used to refute the per-row containment of C3. -/
def cfgC3 : List (String × CfgSection) := cfg_indirect_only "phases" "FAS_CON" "no_such_fn"

/-- Counterexample to C3 as stated: the unknown-function failure is *not*
contained to one row—the batch entry itself returns the error, so the other
row of the batch produces no entity either (the claim promises
`len(entities)` ≥ 1 here). -/
theorem c3_batch_abort_counterexample :
    create_transformer_from_json cfgC3
      [[("FAS_CON", .vstr "ABC")], [("FAS_CON", .vstr "AB")]] =
      .error (.keyError "no_such_fn") := by
  with_unfolding_all rfl

/-! ## Claim C9 -/

/-- A configuration whose only section is a single `calculated` rule. -/
def cfg_calc_only (attr : String) (items : List CfgTok) : List (String × CfgSection) :=
  [("calculated", .calcSec [(attr, items)])]

/-- C9 (amended): when the assembled token expression of a `calculated` rule
fails to evaluate (unbalanced parentheses → `SyntaxError`, an unknown symbol
→ `NameError`, a division by zero → `ZeroDivisionError`), the rule raises
that error and it aborts the row's entity construction—and, the batch driver
having no per-row handler, the error propagates out of the batch entry, so
it is *not* contained to the current row. -/
theorem c9_expression_error (attr : String) (items : List CfgTok) (row : Row)
    (rows : List Row) (obj : AttrObj) (e : PyErr)
    (h : evalCalcRule row items = .error e) :
    processCalculated obj [(attr, items)] row = .error e ∧
    create_transformer_from_row (cfg_calc_only attr items) row = .error e ∧
    create_transformer_from_json (cfg_calc_only attr items) (row :: rows) = .error e ∧
    evalString "(1+2" = .error .malformedExpr ∧
    evalString "1/ 0" = .error .zeroDivisionError ∧
    evalString " foo" = .error (.nameError "foo") := by
  have h1 : ∀ obj2 : AttrObj, processCalculated obj2 [(attr, items)] row = .error e := by
    intro obj2
    simp only [processCalculated, h]
  have h2 : create_transformer_from_row (cfg_calc_only attr items) row = .error e := by
    simp only [create_transformer_from_row, cfg_calc_only, processEntries,
      processEntry_calc, h1]
  refine ⟨h1 obj, h2, ?_, ?_, ?_, ?_⟩
  · simp only [create_transformer_from_json, processRows, h2]
  · with_unfolding_all rfl
  · with_unfolding_all rfl
  · with_unfolding_all rfl

/-- The division-prone `calculated` configuration used for C9's concrete
instances. -/
def cfgC9 : List (String × CfgSection) :=
  cfg_calc_only "tap" [CfgTok.cint 1, CfgTok.cstr "/", CfgTok.cstr "FTE"]

/-- A row whose `FTE` value is zero (the assembled expression is `"1/ 0"`). -/
def rowC9a : Row := [("FTE", .vint 0)]

/-- A row whose `FTE` value is two (the assembled expression is `"1/ 2"`). -/
def rowC9b : Row := [("FTE", .vint 2)]

/-- Witness for C9: the zero row makes the rule, the row construction and
the whole batch fail with `ZeroDivisionError`. -/
theorem c9_expression_error_witness :
    create_transformer_from_row cfgC9 rowC9a = .error .zeroDivisionError ∧
    create_transformer_from_json cfgC9 (rowC9a :: [rowC9b]) = .error .zeroDivisionError := by
  have h := c9_expression_error "tap" [CfgTok.cint 1, CfgTok.cstr "/", CfgTok.cstr "FTE"]
    rowC9a [rowC9b] [] PyErr.zeroDivisionError (by with_unfolding_all rfl)
  exact ⟨h.2.1, h.2.2.1⟩

/-- The entity row `rowC9b` builds on its own under `cfgC9`. -/
def objC9b : AttrObj := (create_transformer_from_row cfgC9 rowC9b).toOption.getD []

/-- Counterexample to C9 as stated: the expression error is *not* fatal only
for the current row—while the second row alone builds an entity just fine,
the two-row batch returns the first row's `ZeroDivisionError` and produces
nothing at all. -/
theorem c9_batch_abort_counterexample :
    create_transformer_from_json cfgC9 [rowC9a, rowC9b] = .error .zeroDivisionError ∧
    create_transformer_from_row cfgC9 rowC9b = .ok objC9b := by
  constructor
  · with_unfolding_all rfl
  · with_unfolding_all rfl

/-! ## Claim C8 -/

/-- C8 (amended): for a *non-empty* row set on which no per-row error
occurs, the batch produces exactly one entity per input row, in input row
order, and returns the ordered entity list together with the output artifact
identifier obtained by writing to the destination keyed by the feeder of the
last-processed entity. -/
theorem c8_batch_contract (cfg : List (String × CfgSection)) (rows : List Row)
    (ts : List AttrObj) (a : Val)
    (h0 : rows ≠ []) (h1 : processRows cfg rows = .ok ts)
    (h2 : getArquivo cfg = .ok a) :
    ts.length = rows.length ∧
    (∀ (i : ℕ) (hi : i < rows.length) (hi' : i < ts.length),
      create_transformer_from_row cfg (rows.get ⟨i, hi⟩) = .ok (ts.get ⟨i, hi'⟩)) ∧
    (∀ l, ts.getLast? = some l →
      create_transformer_from_json cfg rows =
        .ok (ts, create_output_file ts a (feederOf l))) ∧
    ts ≠ [] := by
  refine ⟨processRows_length cfg rows ts h1, processRows_get cfg rows ts h1, ?_, ?_⟩
  · intro l hl
    simp only [create_transformer_from_json, h1, h2, hl]
  · intro he
    apply h0
    have hlen := processRows_length cfg rows ts h1
    rw [he] at hlen
    exact List.length_eq_zero.mp hlen.symm

/-- The configuration used to witness C8: one direct rule filling the feeder
and an `arquivo` entry. -/
def cfgC8 : List (String × CfgSection) :=
  [("direct_mapping", .directSec [("feeder", "CTMT")]),
   ("arquivo", .scalar (.vstr "trafos"))]

/-- Two rows with different feeder values. -/
def rowsC8 : List Row := [[("CTMT", .vstr "F1")], [("CTMT", .vstr "F2")]]

/-- The entity list the batch loop produces from `cfgC8` and `rowsC8`. -/
def tsC8 : List AttrObj := (processRows cfgC8 rowsC8).toOption.getD []

/-- The last-processed entity of that batch. -/
def lastC8 : AttrObj := tsC8.getLast?.getD []

/-- Witness for C8: the two-row batch yields two entities and the artifact
identifier is keyed by the *last* entity's feeder, `"F2"`. -/
theorem c8_batch_contract_witness :
    tsC8.length = 2 ∧
    create_transformer_from_json cfgC8 rowsC8 = .ok (tsC8, "trafos_F2") := by
  have h1 : processRows cfgC8 rowsC8 = .ok tsC8 := by with_unfolding_all rfl
  have h2 : getArquivo cfgC8 = .ok (.vstr "trafos") := by with_unfolding_all rfl
  have h0 : rowsC8 ≠ [] := by
    intro he
    exact List.noConfusion he
  have h := c8_batch_contract cfgC8 rowsC8 tsC8 (.vstr "trafos") h0 h1 h2
  constructor
  · exact h.1.trans (by with_unfolding_all rfl)
  · have hl : tsC8.getLast? = some lastC8 := by with_unfolding_all rfl
    have hb := h.2.2.1 lastC8 hl
    exact hb.trans (by with_unfolding_all rfl)

/-- Counterexample to C8 as stated: on the empty row set—where no per-row
error occurs—the batch does not return the empty entity list with an
artifact identifier; it raises `UnboundLocalError` instead. -/
theorem c8_empty_rows_counterexample :
    create_transformer_from_json cfgC8 [] = .error (.unboundLocal "transformer_") := by
  with_unfolding_all rfl

/-! ## Claim C10 -/

/-- C10: for the empty row set (with the `arquivo` entry present, so that
the earlier `config["arquivo"]` evaluation succeeds), the per-row loop never
binds `transformer_`, and the output-file call's `transformer_.feeder`
argument raises the unbound-variable error: the batch entry implicitly
requires a non-empty row set. -/
theorem c10_empty_rows_unbound (cfg : List (String × CfgSection)) (a : Val)
    (h : getArquivo cfg = .ok a) :
    create_transformer_from_json cfg [] = .error (.unboundLocal "transformer_") := by
  simp only [create_transformer_from_json, processRows, h, List.getLast?]

/-- A minimal configuration carrying only the `arquivo` entry. -/
def cfgC10 : List (String × CfgSection) := [("arquivo", .scalar (.vstr "saida"))]

/-- Witness for C10 at a concrete configuration. -/
theorem c10_empty_rows_unbound_witness :
    create_transformer_from_json cfgC10 [] = .error (.unboundLocal "transformer_") :=
  c10_empty_rows_unbound cfgC10 (.vstr "saida") (by with_unfolding_all rfl)
